import Mathlib

/-!
Verification development for the Turf booking backend.

Shallow embedding conventions:
* times of day are minutes after midnight (`Nat`, in range 0 .. 1439);
* calendar dates are days counted from 1970-01-01 (`Int`), so that the
  Python `date.weekday()` of day `d` is `(d + 3) % 7` (Monday = 0,
  1970-01-01 was a Thursday);
* money amounts are exact rationals;
* `while` loops of the source become structurally recursive functions on
  an explicit iteration bound.  Every caller passes the exact bound
  `end - current`, which dominates the number of iterations because each
  iteration advances `current` by at least one minute, so the bound
  branch is never taken on the calls the embedding makes;
* Python exceptions (Django ValidationError, ValueError, DRF error
  responses) become `Except` / `Option` results; a DRF view running
  inside `transaction.atomic` that raises rolls back, which the
  embedding models by returning `Except.error` and keeping the caller
  state unchanged.
-/

set_option maxRecDepth 8000

namespace TurfBackend

/-- Python weekday (Monday = 0 .. Sunday = 6) of an epoch-day number. -/
def weekdayOf (d : Int) : Nat :=
  ((d + 3) % 7).toNat

/-- Turf/service.py: WEEKEND_DAYS = {5, 6} (Saturday, Sunday). -/
def WEEKEND_DAYS : List Nat := [5, 6]

/-- Turf/service.py: is_weekend(date). -/
def is_weekend (d : Int) : Bool :=
  WEEKEND_DAYS.contains (weekdayOf d)

/-- Turf/service.py: overlaps(a_start, a_end, b_start, b_end),
the half-open interval overlap test. -/
def overlaps (a_start a_end b_start b_end : Nat) : Bool :=
  decide (a_start < b_end) && decide (a_end > b_start)

/-- The while loop of Turf/service.py calculate_booking_price.
`current` steps to `time(current.hour + 1, 0)`; constructing that time
raises ValueError (`none`) when `current.hour + 1 > 23`.  `fuel` is the
iteration bound; callers pass `stop - current`, and each iteration moves
`current` up by at least one minute, so the `0` branch is never reached
from those calls. -/
def priceHourlyGo (base : ℚ) (stop : Nat) : Nat → Nat → ℚ → Option ℚ
  | 0, current, total =>
    if current < stop then none else some total
  | fuel + 1, current, total =>
    if current < stop then
      if current / 60 + 1 ≤ 23 then
        priceHourlyGo base stop fuel ((current / 60 + 1) * 60)
          (total + if overlaps current ((current / 60 + 1) * 60) (18 * 60) (22 * 60)
            then base * (3 / 2) else base)
      else none
    else some total

/-- Turf/models.py: Booking.BOOKING_TYPE_CHOICES. -/
inductive BType
| hourly
| full_day
deriving DecidableEq, Repr

/-- Turf/models.py: Booking.STATUS_CHOICES (only CONFIRMED and
CANCELLED exist on the model). -/
inductive BStatus
| CONFIRMED
| CANCELLED
deriving DecidableEq, Repr

/-- Turf/models.py: Payment.PAYMENT_STATUS_CHOICES. -/
inductive PayStatus
| SUCCESS
| FAILED
| PENDING
deriving DecidableEq, Repr

/-- slots/constants.py: SlotStatus.CHOICES. -/
inductive SlotStatus
| AVAILABLE
| BOOKED
| MAINTENANCE
| BLOCKED
| TOURNAMENT
deriving DecidableEq, Repr

/-- Turf/service.py: calculate_booking_price(booking).
FULL_DAY is a flat weekend or weekday rate; HOURLY sums a weekend or
weekday base over the hour loop, multiplying by 1.5 for hours that
overlap the hard-coded 18:00 - 22:00 peak window.  `none` models the
ValueError raised by `time(current.hour + 1, 0)` when the hour
overflows past 23. -/
def calculate_booking_price (booking_date : Int) (booking_type : BType)
    (start_time end_time : Nat) : Option ℚ :=
  let weekend := is_weekend booking_date
  if booking_type = BType.full_day then
    some (if weekend then 12000 else 10000)
  else
    let base : ℚ := if weekend then 1000 else 800
    priceHourlyGo base end_time (end_time - start_time) start_time 0

/-- The while loop of Turf/utils.py generate_hour_slots: appends
`current.time()` (minutes mod 1440) and advances one hour while
`current < end`.  `fuel` is the iteration bound, fixed to
`endm - current` by the caller. -/
def hourSlotsGo : Nat → Nat → Nat → List Nat
  | 0, _, _ => []
  | fuel + 1, endm, current =>
    if current < endm then
      (current % 1440) :: hourSlotsGo fuel endm (current + 60)
    else []

/-- Turf/utils.py: generate_hour_slots(open_time, close_time).
When `close_time ≤ open_time` the closing boundary is pushed to the
next day (`+ 1440` minutes) before the hourly walk. -/
def generate_hour_slots (open_time close_time : Nat) : List Nat :=
  let endm := if close_time ≤ open_time then close_time + 1440 else close_time
  hourSlotsGo (endm - open_time) endm open_time

/-- Turf/utils.py: expand_booking_slots(start, end): hourly walk from
`start` while before `end`, both on the same day (no wrap handling). -/
def expand_booking_slots (start stop : Nat) : List Nat :=
  hourSlotsGo (stop - start) stop start

/-- The hourly-pair while loops of slots/services.py
generate_slots_for_date: emits `(current.time(), (current + 1h).time())`
while `current < end`, on the selected date (no wrap handling).  `fuel`
is the iteration bound, fixed to `endm - current` by the caller. -/
def hourRangeGo : Nat → Nat → Nat → List (Nat × Nat)
  | 0, _, _ => []
  | fuel + 1, endm, current =>
    if current < endm then
      (current % 1440, (current + 60) % 1440) :: hourRangeGo fuel endm (current + 60)
    else []

/-- slots/services.py: generate_slots_for_date(open_time, close_time,
selected_date).  Weekends get three fixed blocks 06:00-10:00,
10:00-14:00, 14:00-18:00 and then hourly slots from 18:00 until
closing; weekdays get hourly slots from opening until closing. -/
def generate_slots_for_date (open_time close_time : Nat) (selected_date : Int) :
    List (Nat × Nat) :=
  if weekdayOf selected_date ∈ ([5, 6] : List Nat) then
    [(6 * 60, 10 * 60), (10 * 60, 14 * 60), (14 * 60, 18 * 60)]
      ++ hourRangeGo (close_time - 18 * 60) close_time (18 * 60)
  else
    hourRangeGo (close_time - open_time) close_time open_time

/-- Turf/models.py: the Turf fields the booking and slot core reads
(operating hours, base price, platform commission). -/
structure Turf where
  id : Nat
  opening_time : Nat
  closing_time : Nat
  price : Nat
  platform_fee_percent : ℚ
deriving DecidableEq, Repr

/-- Turf/models.py: one persisted Booking row.  Full-day rows store no
times; the embedding keeps the NULL start/end of a FULL_DAY row as 0,
which no conflict query ever reads because every time filter in the
source is guarded by booking_type = HOURLY.  `amount_info` carries the
(base_amount, platform_fee, total_amount) triple the pay path persists;
`legacy_price` carries the `price` keyword the legacy confirm view and
BookingSerializer.create pass instead. -/
structure BookingRow where
  id : Nat
  turfId : Nat
  userId : Nat
  booking_type : BType
  booking_date : Int
  start_time : Nat
  end_time : Nat
  status : BStatus
  amount_info : Option (ℚ × ℚ × ℚ)
  legacy_price : Option ℚ
deriving DecidableEq, Repr

/-- Turf/models.py: one persisted Payment row (transaction_ref is the
idempotency key, unique in the database). -/
structure PaymentRow where
  bookingId : Nat
  payment_method : String
  transaction_ref : String
  amount_paid : ℚ
  currency : String
  status : PayStatus
deriving DecidableEq, Repr

/-- slots/models.py: one persisted Slot row. -/
structure SlotRow where
  id : Nat
  turfId : Nat
  date : Int
  start_time : Nat
  end_time : Nat
  status : SlotStatus
  price : ℚ
  label : String
deriving DecidableEq, Repr

/-- Turf/models.py: one persisted MaintenanceBlock row. -/
structure MaintRow where
  turfId : Nat
  date : Int
  start_time : Nat
  end_time : Nat
  reason : String
deriving DecidableEq, Repr

/-- The relational state the views read and write, with the primary-key
counters the database would advance on insert. -/
structure Db where
  bookings : List BookingRow
  payments : List PaymentRow
  slots : List SlotRow
  maint : List MaintRow
  nextBookingId : Nat
  nextSlotId : Nat
deriving DecidableEq, Repr

/-- Filter shared by the confirm and serializer paths: CONFIRMED
bookings of this turf on this date. -/
def confirmedFor (turfId : Nat) (date : Int) (b : BookingRow) : Bool :=
  b.turfId == turfId && b.booking_date == date && b.status == BStatus.CONFIRMED

/-- Outcome of Turf/views.py BookingPayView.post. -/
inductive PayResult
| conflict409
| alreadyProcessed (bookingId : Nat) (payment_status : PayStatus) (amount : ℚ)
    (currency : String)
| bookingConfirmed (bookingId : Nat) (grand_total : ℚ)
deriving DecidableEq, Repr

/-- Turf/views.py: BookingPayView.post.  Computes the end time by adding
`duration` hours to `start` (then `.time()`, hence mod 1440), prices
from the turf base price plus platform fee, rejects with 409 only on an
overlap with a CONFIRMED HOURLY booking, creates the CONFIRMED booking,
and only then looks up an existing Payment by transaction_ref; if one
exists it returns that payment data (the created booking stays, since
the atomic block exits normally and commits). -/
def BookingPayView_post (turf : Turf) (userId : Nat) (date : Int)
    (start duration : Nat) (payment_method transaction_ref : String)
    (db : Db) : PayResult × Db :=
  let endT := (start + duration * 60) % 1440
  let base_amount : ℚ := (duration : ℚ) * (turf.price : ℚ)
  let platform_fee := base_amount * turf.platform_fee_percent / 100
  let total_amount := base_amount + platform_fee
  if db.bookings.any (fun b =>
      b.turfId == turf.id && b.booking_date == date &&
      b.status == BStatus.CONFIRMED && b.booking_type == BType.hourly &&
      decide (b.start_time < endT) && decide (b.end_time > start)) then
    (PayResult.conflict409, db)
  else
    let booking : BookingRow :=
      { id := db.nextBookingId, turfId := turf.id, userId := userId
        booking_type := BType.hourly, booking_date := date
        start_time := start, end_time := endT, status := BStatus.CONFIRMED
        amount_info := some (base_amount, platform_fee, total_amount)
        legacy_price := none }
    let db1 := { db with bookings := db.bookings ++ [booking]
                         nextBookingId := db.nextBookingId + 1 }
    match db.payments.find? (fun p => p.transaction_ref == transaction_ref) with
    | some p =>
        (PayResult.alreadyProcessed p.bookingId p.status p.amount_paid p.currency, db1)
    | none =>
        let pay : PaymentRow :=
          { bookingId := booking.id, payment_method := payment_method
            transaction_ref := transaction_ref, amount_paid := total_amount
            currency := "INR", status := PayStatus.SUCCESS }
        (PayResult.bookingConfirmed booking.id total_amount,
          { db1 with payments := db1.payments ++ [pay] })

/-- Outcome of Turf/views.py BookingConfirmView.post. -/
inductive ConfirmResult
| fullDayConflict
| slotConflict
| success (bookingId : Nat)
deriving DecidableEq, Repr

/-- Turf/views.py: BookingConfirmView.post (legacy confirm without
payment).  Rejects with 409 when a CONFIRMED FULL_DAY booking exists,
then when the requested range overlaps a CONFIRMED HOURLY booking;
otherwise creates a CONFIRMED HOURLY booking priced at
`duration * turf.price`. -/
def BookingConfirmView_post (turf : Turf) (userId : Nat) (date : Int)
    (start duration : Nat) (db : Db) : ConfirmResult × Db :=
  let endT := (start + duration * 60) % 1440
  let existing := db.bookings.filter (confirmedFor turf.id date)
  if existing.any (fun b => b.booking_type == BType.full_day) then
    (ConfirmResult.fullDayConflict, db)
  else if existing.any (fun b =>
      b.booking_type == BType.hourly &&
      decide (b.start_time < endT) && decide (b.end_time > start)) then
    (ConfirmResult.slotConflict, db)
  else
    let booking : BookingRow :=
      { id := db.nextBookingId, turfId := turf.id, userId := userId
        booking_type := BType.hourly, booking_date := date
        start_time := start, end_time := endT, status := BStatus.CONFIRMED
        amount_info := none
        legacy_price := some ((duration * turf.price : Nat) : ℚ) }
    (ConfirmResult.success db.nextBookingId,
      { db with bookings := db.bookings ++ [booking]
                nextBookingId := db.nextBookingId + 1 })

/-- Turf/serializers.py: BookingSerializer.validate.  `some msg` models
a raised ValidationError; `none` means the data passed validation.
`today` is the local calendar date at the time of the call. -/
def BookingSerializer_validate (turf : Turf) (today : Int) (booking_date : Int)
    (booking_type : BType) (start_time end_time : Option Nat) : Option String :=
  if booking_date < today then some "Cannot book past dates"
  else
    let days_ahead := booking_date - today
    if booking_type = BType.full_day ∧ days_ahead > 60 then
      some "Full-day booking allowed only up to 2 months in advance"
    else if booking_type = BType.hourly then
      if days_ahead > 7 then
        some "Hourly booking allowed only up to 7 days in advance"
      else
        match start_time, end_time with
        | some s, some e =>
            if s ≥ e then some "Invalid time range"
            else if s < turf.opening_time ∨ e > turf.closing_time then
              some "Outside operating hours"
            else none
        | _, _ => some "Start and end time required"
    else none

/-- Turf/serializers.py: BookingSerializer.create.  Conflict checks run
against CONFIRMED bookings of the (turf, date): a FULL_DAY request is
rejected when any exists; an HOURLY request is rejected when a FULL_DAY
exists or when the range overlaps a CONFIRMED HOURLY booking.  The
created row carries the computed `price` keyword (12 hours of base
price for FULL_DAY, truncated hours-times-price for HOURLY). -/
def BookingSerializer_create (turf : Turf) (userId : Nat) (booking_date : Int)
    (booking_type : BType) (start_time end_time : Nat) (db : Db) :
    Except String (Nat × Db) :=
  let existing := db.bookings.filter (confirmedFor turf.id booking_date)
  let mk : Option ℚ → BookingRow := fun price =>
    { id := db.nextBookingId, turfId := turf.id, userId := userId
      booking_type := booking_type, booking_date := booking_date
      start_time := if booking_type = BType.hourly then start_time else 0
      end_time := if booking_type = BType.hourly then end_time else 0
      status := BStatus.CONFIRMED, amount_info := none, legacy_price := price }
  if booking_type = BType.full_day then
    if existing.isEmpty then
      Except.ok (db.nextBookingId,
        { db with bookings := db.bookings ++ [mk (some ((turf.price * 12 : Nat) : ℚ))]
                  nextBookingId := db.nextBookingId + 1 })
    else Except.error "Turf already booked"
  else
    if existing.any (fun b => b.booking_type == BType.full_day) then
      Except.error "Turf already booked"
    else if existing.any (fun b =>
        b.booking_type == BType.hourly &&
        decide (b.start_time < end_time) && decide (b.end_time > start_time)) then
      Except.error "Time slot already booked"
    else
      Except.ok (db.nextBookingId,
        { db with
            bookings := db.bookings
              ++ [mk (some ((((end_time - start_time) * turf.price) / 60 : Nat) : ℚ))]
            nextBookingId := db.nextBookingId + 1 })

/-- Ascending insertion used to model Python sorted(...). -/
def sortedInsert (x : Nat) : List Nat → List Nat
  | [] => [x]
  | y :: ys => if x ≤ y then x :: y :: ys else y :: sortedInsert x ys

/-- Python sorted(...) over a list of minutes. -/
def sortNat (l : List Nat) : List Nat :=
  l.foldr sortedInsert []

/-- Response body of Turf/views.py TurfAvailabilityView.get (the fields
the availability contract is about). -/
structure AvailResponse where
  booked_slots : List Nat
  blocked_slots : List Nat
  price_per_slot : ℚ
deriving DecidableEq, Repr

/-- Turf/views.py: TurfAvailabilityView.get.  Reads CONFIRMED bookings
of the (turf, date); a FULL_DAY booking marks the whole generated grid
booked, otherwise hourly bookings are expanded to their hour labels,
deduplicated and sorted.  blocked_slots is always empty and no other
table is consulted. -/
def TurfAvailabilityView_get (turf : Turf) (date : Int) (db : Db) : AvailResponse :=
  let bookings := db.bookings.filter (confirmedFor turf.id date)
  let all_slots := generate_hour_slots turf.opening_time turf.closing_time
  if bookings.any (fun b => b.booking_type == BType.full_day) then
    { booked_slots := all_slots, blocked_slots := [], price_per_slot := (turf.price : ℚ) }
  else
    let hourly := bookings.filter (fun b => b.booking_type == BType.hourly)
    let booked :=
      ((hourly.map (fun b => expand_booking_slots b.start_time b.end_time)).flatten).dedup
    { booked_slots := sortNat booked, blocked_slots := []
      price_per_slot := (turf.price : ℚ) }

/-- One slot entry of the slots/services.py build_slots_response
response. -/
structure SlotOut where
  from_time : Nat
  to_time : Nat
  status : SlotStatus
  price : ℚ
  label : String
deriving DecidableEq, Repr

/-- slots/services.py: build_slots_response(turf, selected_date).
Builds the generated grid for the date, then for each range serves the
persisted Slot row with that start_time when one exists (the database
enforces at most one per (turf, date, start_time)) and a default
AVAILABLE entry at the turf base price otherwise.  MaintenanceBlock
rows are never consulted. -/
def build_slots_response (turf : Turf) (selected_date : Int) (db : Db) : List SlotOut :=
  let existing := db.slots.filter (fun s => s.turfId == turf.id && s.date == selected_date)
  let slot_ranges := generate_slots_for_date turf.opening_time turf.closing_time selected_date
  slot_ranges.map (fun r =>
    match existing.find? (fun s => s.start_time == r.1) with
    | some s =>
        { from_time := s.start_time, to_time := s.end_time, status := s.status
          price := s.price, label := s.label }
    | none =>
        { from_time := r.1, to_time := r.2, status := SlotStatus.AVAILABLE
          price := (turf.price : ℚ), label := "Open Session" })

/-- One parsed entry of the slots/serializers.py bulk and smart slot
payloads (after time parsing and status validation). -/
structure SlotReq where
  start_time : Nat
  end_time : Nat
  status : SlotStatus
  price : ℚ
  label : String
deriving DecidableEq, Repr

/-- slots/views.py: BulkSlotSaveView.post.  Rejects when any incoming
range overlaps a BOOKED slot of the (turf, date) (half-open test
written as the negated disjointness test of the source), then deletes
the non-BOOKED slots of the (turf, date) and bulk-creates the incoming
rows. -/
def BulkSlotSaveView_post (turfId : Nat) (date : Int) (parsed_slots : List SlotReq)
    (db : Db) : Except String Db :=
  let booked_slots := db.slots.filter (fun s =>
    s.turfId == turfId && s.date == date && s.status == SlotStatus.BOOKED)
  if parsed_slots.any (fun incoming => booked_slots.any (fun booked =>
      !(decide (incoming.end_time ≤ booked.start_time)
        || decide (incoming.start_time ≥ booked.end_time)))) then
    Except.error "Cannot modify slots overlapping booked slots"
  else
    let kept := db.slots.filter (fun s =>
      !(s.turfId == turfId && s.date == date && !(s.status == SlotStatus.BOOKED)))
    let new_slots := (List.range parsed_slots.length).zip parsed_slots |>.map
      (fun p =>
        ({ id := db.nextSlotId + p.1, turfId := turfId, date := date
           start_time := p.2.start_time, end_time := p.2.end_time
           status := p.2.status, price := p.2.price, label := p.2.label } : SlotRow))
    Except.ok { db with slots := kept ++ new_slots
                        nextSlotId := db.nextSlotId + parsed_slots.length }

/-- Replace the first row satisfying `p` (the row Django would have
loaded with .first() and then saved). -/
def replaceFirst (p : SlotRow → Bool) (f : SlotRow → SlotRow) : List SlotRow → List SlotRow
  | [] => []
  | r :: rest => if p r then f r :: rest else r :: replaceFirst p f rest

/-- Exact-range lookup shared by the smart save and bulk patch views. -/
def exactRange (turfId : Nat) (date : Int) (s e : Nat) (r : SlotRow) : Bool :=
  r.turfId == turfId && r.date == date && r.start_time == s && r.end_time == e

/-- The per-entry loop of slots/views.py SmartSlotSaveView.patch:
an exact (turf, date, start, end) match is updated unless BOOKED
(which aborts the whole transaction), and a missing range is created
as a new row.  Returns (created, updated) with the final state. -/
def smartGo (turfId : Nat) (date : Int) :
    List SlotReq → Nat × Nat → Db → Except String (Nat × Nat × Db)
  | [], acc, db => Except.ok (acc.1, acc.2, db)
  | s :: rest, acc, db =>
    match db.slots.find? (exactRange turfId date s.start_time s.end_time) with
    | some slot =>
        if slot.status == SlotStatus.BOOKED then
          Except.error "Booked slot cannot be modified"
        else
          let slots2 :=
            replaceFirst (exactRange turfId date s.start_time s.end_time)
              (fun r => { r with status := s.status, price := s.price, label := s.label })
              db.slots
          smartGo turfId date rest (acc.1, acc.2 + 1) { db with slots := slots2 }
    | none =>
        smartGo turfId date rest (acc.1 + 1, acc.2)
          { db with
              slots := db.slots ++
                [{ id := db.nextSlotId, turfId := turfId, date := date
                   start_time := s.start_time, end_time := s.end_time
                   status := s.status, price := s.price, label := s.label }]
              nextSlotId := db.nextSlotId + 1 }

/-- slots/views.py: SmartSlotSaveView.patch. -/
def SmartSlotSaveView_patch (turfId : Nat) (date : Int) (slots : List SlotReq)
    (db : Db) : Except String (Nat × Nat × Db) :=
  smartGo turfId date slots (0, 0) db

/-- The partial update payload of the single and bulk patch views
(allow-listed fields status, price, label). -/
structure SlotPatch where
  status : Option SlotStatus
  price : Option ℚ
  label : Option String
deriving DecidableEq, Repr

/-- Apply a partial update to a row (setattr per provided field). -/
def applyPatch (p : SlotPatch) (r : SlotRow) : SlotRow :=
  { r with status := p.status.getD r.status, price := p.price.getD r.price
           label := p.label.getD r.label }

/-- slots/views.py: SlotUpdateView.patch.  404 when the id is unknown,
rejected when the slot is BOOKED, field update otherwise. -/
def SlotUpdateView_patch (slotId : Nat) (p : SlotPatch) (db : Db) : Except String Db :=
  match db.slots.find? (fun r => r.id == slotId) with
  | none => Except.error "Not found"
  | some slot =>
      if slot.status == SlotStatus.BOOKED then
        Except.error "Booked slots cannot be modified"
      else
        Except.ok { db with slots := replaceFirst (fun r => r.id == slotId) (applyPatch p) db.slots }

/-- slots/views.py: SlotDeleteView.delete.  404 when the id is unknown,
rejected when the slot is BOOKED, physical delete otherwise. -/
def SlotDeleteView_delete (slotId : Nat) (db : Db) : Except String Db :=
  match db.slots.find? (fun r => r.id == slotId) with
  | none => Except.error "Not found"
  | some slot =>
      if slot.status == SlotStatus.BOOKED then
        Except.error "Booked slots cannot be deleted"
      else
        Except.ok { db with slots := db.slots.filter (fun r => !(r.id == slotId)) }

/-- The per-range loop of slots/views.py BulkSlotUpdateView.patch:
each range must name an existing (turf, date, start, end) row, BOOKED
rows reject the whole transaction, other rows get the patch applied. -/
def bulkPatchGo (turfId : Nat) (date : Int) (data : SlotPatch) :
    List (Nat × Nat) → Nat → Db → Except String (Nat × Db)
  | [], count, db => Except.ok (count, db)
  | rng :: rest, count, db =>
    match db.slots.find? (exactRange turfId date rng.1 rng.2) with
    | none => Except.error "Slot not found"
    | some slot =>
        if slot.status == SlotStatus.BOOKED then
          Except.error "Booked slots cannot be modified"
        else
          let slots2 :=
            replaceFirst (exactRange turfId date rng.1 rng.2) (applyPatch data) db.slots
          bulkPatchGo turfId date data rest (count + 1) { db with slots := slots2 }

/-- slots/views.py: BulkSlotUpdateView.patch. -/
def BulkSlotUpdateView_patch (turfId : Nat) (date : Int) (slot_ranges : List (Nat × Nat))
    (data : SlotPatch) (db : Db) : Except String (Nat × Db) :=
  bulkPatchGo turfId date data slot_ranges 0 db

deriving instance DecidableEq for Except

/-- Constructor test for Except results (a successful HTTP response as
opposed to a raised error). -/
def isOkE {ε α : Type} (x : Except ε α) : Bool :=
  match x with
  | Except.ok _ => true
  | Except.error _ => false

/-- The weekend grid as the observed shape states it: the three fixed
blocks, then the one-hour slots whose start lies at 18:00 plus a whole
number of hours and strictly before closing time. -/
def weekend_slots_spec (close_time : Nat) : List (Nat × Nat) :=
  [(360, 600), (600, 840), (840, 1080)] ++
    (List.range ((close_time - 1080 + 59) / 60)).map
      (fun k => ((1080 + 60 * k) % 1440, (1080 + 60 * k + 60) % 1440))

/-- Test fixture: a venue open 06:00 - 23:00 at base price 1000 with a
5 percent platform fee. -/
def turf1 : Turf :=
  { id := 1, opening_time := 360, closing_time := 1380, price := 1000
    platform_fee_percent := 5 }

/-- Test fixture: an empty database. -/
def db_empty : Db :=
  { bookings := [], payments := [], slots := [], maint := []
    nextBookingId := 1, nextSlotId := 1 }

/-- Test fixture: a CONFIRMED HOURLY booking 10:00 - 12:00 on turf 1,
day 4 (a Monday). -/
def booking_10_12 : BookingRow :=
  { id := 1, turfId := 1, userId := 5, booking_type := BType.hourly
    booking_date := 4, start_time := 600, end_time := 720
    status := BStatus.CONFIRMED, amount_info := some (2000, 100, 2100)
    legacy_price := none }

/-- Test fixture: database holding only `booking_10_12`. -/
def db_c4 : Db :=
  { bookings := [booking_10_12], payments := [], slots := [], maint := []
    nextBookingId := 2, nextSlotId := 1 }

/-- Test fixture: the recorded payment for `booking_10_12` under
transaction_ref T1. -/
def paymentT1 : PaymentRow :=
  { bookingId := 1, payment_method := "UPI", transaction_ref := "T1"
    amount_paid := 2100, currency := "INR", status := PayStatus.SUCCESS }

/-- Test fixture: database where booking 1 is already paid (ref T1). -/
def db_c1 : Db :=
  { bookings := [booking_10_12], payments := [paymentT1], slots := [], maint := []
    nextBookingId := 2, nextSlotId := 1 }

/-- Test fixture: a CONFIRMED FULL_DAY booking on turf 1, day 4. -/
def bookingFullDay : BookingRow :=
  { id := 1, turfId := 1, userId := 5, booking_type := BType.full_day
    booking_date := 4, start_time := 0, end_time := 0
    status := BStatus.CONFIRMED, amount_info := none, legacy_price := some 12000 }

/-- Test fixture: database holding only the full-day booking. -/
def db_c2 : Db :=
  { bookings := [bookingFullDay], payments := [], slots := [], maint := []
    nextBookingId := 2, nextSlotId := 1 }

/-- Test fixture: a maintenance block 10:00 - 11:00 on turf 1, day 4. -/
def maintBlock1 : MaintRow :=
  { turfId := 1, date := 4, start_time := 600, end_time := 660, reason := "cleaning" }

/-- Test fixture: database holding only the maintenance block (no slot
rows, no bookings). -/
def db_c7 : Db :=
  { bookings := [], payments := [], slots := [], maint := [maintBlock1]
    nextBookingId := 1, nextSlotId := 1 }

/-- Test fixture: a persisted Slot row 10:00 - 11:00 with status
MAINTENANCE on turf 1, day 4. -/
def maintSlotRow : SlotRow :=
  { id := 1, turfId := 1, date := 4, start_time := 600, end_time := 660
    status := SlotStatus.MAINTENANCE, price := 800, label := "maint" }

/-- Test fixture: database holding only `maintSlotRow`. -/
def db_maint_slot : Db :=
  { bookings := [], payments := [], slots := [maintSlotRow], maint := []
    nextBookingId := 1, nextSlotId := 2 }

/-- Test fixture: a BOOKED slot row 10:00 - 11:00 on turf 1, day 4. -/
def bookedSlot1 : SlotRow :=
  { id := 1, turfId := 1, date := 4, start_time := 600, end_time := 660
    status := SlotStatus.BOOKED, price := 500, label := "b" }

/-- Test fixture: database holding only `bookedSlot1`. -/
def db_c8 : Db :=
  { bookings := [], payments := [], slots := [bookedSlot1], maint := []
    nextBookingId := 1, nextSlotId := 2 }

/-- Closed form of the hourly-pair loop: one slot per whole or started
hour between `cur` and `endm`, provided the iteration bound covers the
distance. -/
theorem hourRangeGo_closed (fuel : Nat) : ∀ endm cur : Nat, endm - cur ≤ fuel →
    hourRangeGo fuel endm cur = (List.range ((endm - cur + 59) / 60)).map
      (fun k => ((cur + 60 * k) % 1440, (cur + 60 * k + 60) % 1440)) := by
  induction fuel with
  | zero =>
      intro endm cur h
      have h0 : endm - cur = 0 := by omega
      simp [hourRangeGo, h0]
  | succ fuel ih =>
      intro endm cur h
      by_cases hlt : cur < endm
      · have h1 : endm - (cur + 60) ≤ fuel := by omega
        have hd : (endm - cur + 59) / 60 = (endm - (cur + 60) + 59) / 60 + 1 := by omega
        rw [hd]
        simp only [hourRangeGo, if_pos hlt, ih endm (cur + 60) h1,
          List.range_succ_eq_map, List.map_cons, List.map_map]
        congr 1
        apply List.map_congr_left
        intro k _
        simp only [Function.comp_apply, Nat.succ_eq_add_one]
        have e1 : cur + 60 * (k + 1) = cur + 60 + 60 * k := by ring
        rw [e1]
      · have h0 : endm - cur = 0 := by omega
        simp [hourRangeGo, if_neg hlt, h0]

/-- The hour-walk generator is never empty once the closing boundary
has been pushed to the next day. -/
theorem generate_hour_slots_ne_nil (o c : Nat) (ho : o < 1440) (hc : c ≤ o) :
    generate_hour_slots o c ≠ [] := by
  show hourSlotsGo ((if c ≤ o then c + 1440 else c) - o) (if c ≤ o then c + 1440 else c) o ≠ []
  rw [if_pos hc]
  obtain ⟨k, hk⟩ : ∃ k, c + 1440 - o = k + 1 := ⟨c + 1439 - o, by omega⟩
  rw [hk]
  simp only [hourSlotsGo]
  rw [if_pos (by omega : o < c + 1440)]
  simp

/-- The pricing loop produces a value whenever the end of the walk is
at or before 23:00 and the iteration bound covers the distance. -/
theorem priceHourlyGo_isSome (base : ℚ) (stop : Nat) (hstop : stop ≤ 1380) :
    ∀ (fuel cur : Nat) (total : ℚ), stop - cur ≤ fuel →
      (priceHourlyGo base stop fuel cur total).isSome = true := by
  intro fuel
  induction fuel with
  | zero =>
      intro cur total h
      have hge : ¬ cur < stop := by omega
      simp [priceHourlyGo, hge]
  | succ fuel ih =>
      intro cur total h
      by_cases hlt : cur < stop
      · have h23 : cur / 60 + 1 ≤ 23 := by omega
        simp only [priceHourlyGo, if_pos hlt, if_pos h23]
        apply ih
        have hdm := Nat.div_add_mod cur 60
        omega
      · simp [priceHourlyGo, hlt]

/-- Claim C3 (counterexample): pricing the hourly booking 17:00 - 23:00
of a Saturday does not return 8500. -/
theorem C3_counterexample : calculate_booking_price 2 BType.hourly 1020 1380 ≠ some 8500 := by
  simp [calculate_booking_price, is_weekend, weekdayOf, WEEKEND_DAYS, priceHourlyGo,
    overlaps]
  norm_num

/-- Claim C3 (amended): an hourly booking 17:00 - 23:00 on a Saturday
(weekend rate 1000, peak window 18:00 - 22:00, multiplier 1.5) prices
as 1000 + 1500 * 4 + 1000 = 8000: the off-peak hours 17 - 18 and
22 - 23 at 1000 and the four peak hours at 1500. -/
theorem C3_price_17_23_saturday :
    calculate_booking_price 2 BType.hourly 1020 1380 = some 8000 := by
  simp [calculate_booking_price, is_weekend, weekdayOf, WEEKEND_DAYS, priceHourlyGo,
    overlaps]
  norm_num

/-- Claim C4: with a CONFIRMED HOURLY booking 10:00 - 12:00 on
(turf 1, day 4), a request for 11:00 - 13:00 is rejected as a conflict
on the legacy confirm, pay, and serializer paths, while 12:00 - 13:00
passes the conflict check on all three; the conflict filter is exactly
the half-open overlap test, under which adjacent intervals never
conflict. -/
theorem C4_half_open_overlap :
    (BookingConfirmView_post turf1 9 4 660 2 db_c4).1 = ConfirmResult.slotConflict
    ∧ (BookingConfirmView_post turf1 9 4 720 1 db_c4).1 = ConfirmResult.success 2
    ∧ (BookingPayView_post turf1 9 4 660 2 "UPI" "TX1" db_c4).1 = PayResult.conflict409
    ∧ ((BookingPayView_post turf1 9 4 720 1 "UPI" "TX1" db_c4).2).bookings.length = 2
    ∧ BookingSerializer_create turf1 9 4 BType.hourly 660 780 db_c4
        = Except.error "Time slot already booked"
    ∧ isOkE (BookingSerializer_create turf1 9 4 BType.hourly 720 780 db_c4) = true
    ∧ (∀ s1 e1 e2 : Nat, overlaps s1 e1 e1 e2 = false)
    ∧ (∀ s0 s1 e1 : Nat, overlaps s1 e1 s0 s1 = false)
    ∧ (∀ bs be rs re : Nat, (decide (bs < re) && decide (be > rs)) = overlaps bs be rs re) := by
  refine ⟨by decide, by decide, by decide, by decide, by decide, by decide, ?_, ?_, ?_⟩
  · intro s1 e1 e2
    simp [overlaps]
  · intro s0 s1 e1
    simp [overlaps]
  · intro bs be rs re
    rfl

/-- Claim C6 (counterexample): with opening 22:00 and closing 06:00 on
a Monday, generate_slots_for_date (used by the slot read path) returns
zero slots instead of a wrapped-around non-empty grid. -/
theorem C6_counterexample : generate_slots_for_date 1320 360 4 = [] := by decide

/-- Claim C6 (amended): generate_hour_slots treats closing <= opening
as next-day closing and always yields a non-empty slot list, but
generate_slots_for_date has no wrap-around handling: on weekdays with
closing <= opening it returns the empty grid. -/
theorem C6_wrap_only_in_turf_generator :
    (∀ o c : Nat, o < 1440 → c ≤ o → generate_hour_slots o c ≠ [])
    ∧ (∀ (o c : Nat) (d : Int), c ≤ o → weekdayOf d ∉ ([5, 6] : List Nat) →
        generate_slots_for_date o c d = []) := by
  constructor
  · intro o c ho hc
    exact generate_hour_slots_ne_nil o c ho hc
  · intro o c d hc hw
    unfold generate_slots_for_date
    rw [if_neg hw]
    have h0 : c - o = 0 := by omega
    rw [h0]
    rfl

/-- Claim C6 witness: the amended statement at opening 22:00, closing
06:00, day 4 (a Monday). -/
theorem C6_witness :
    (1320 : Nat) < 1440 ∧ (360 : Nat) ≤ 1320 ∧ generate_hour_slots 1320 360 ≠ []
    ∧ weekdayOf 4 ∉ ([5, 6] : List Nat) ∧ generate_slots_for_date 1320 360 4 = [] :=
  ⟨by decide, by decide, C6_wrap_only_in_turf_generator.1 1320 360 (by decide) (by decide),
    by decide, C6_wrap_only_in_turf_generator.2 1320 360 4 (by decide) (by decide)⟩

/-- Claim C9: on Saturdays and Sundays generate_slots_for_date returns
exactly the three fixed blocks 06:00 - 10:00, 10:00 - 14:00,
14:00 - 18:00 followed by the one-hour slots from 18:00 whose start
is before closing time, independently of the opening time. -/
theorem C9_weekend_grid_fixed (o o2 c : Nat) (d : Int)
    (hw : weekdayOf d ∈ ([5, 6] : List Nat)) :
    generate_slots_for_date o c d = weekend_slots_spec c
    ∧ generate_slots_for_date o c d = generate_slots_for_date o2 c d := by
  constructor
  · unfold generate_slots_for_date weekend_slots_spec
    rw [if_pos hw]
    congr 1
    exact hourRangeGo_closed (c - 1080) c 1080 le_rfl
  · unfold generate_slots_for_date
    rw [if_pos hw, if_pos hw]

/-- Claim C9 witness: the weekend grid shape at closing 23:00 on day 2
(a Saturday), for the two opening times 08:00 and 09:00. -/
theorem C9_witness :
    weekdayOf 2 ∈ ([5, 6] : List Nat)
    ∧ generate_slots_for_date 480 1380 2 = weekend_slots_spec 1380
    ∧ generate_slots_for_date 480 1380 2 = generate_slots_for_date 540 1380 2 :=
  ⟨by decide, (C9_weekend_grid_fixed 480 540 1380 2 (by decide)).1,
    (C9_weekend_grid_fixed 480 540 1380 2 (by decide)).2⟩

/-- Claim C10 (counterexample): the hourly pricing loop is not total on
start < end: for the booking 23:00 - 23:30 the step to
time(current.hour + 1, 0) would construct hour 24 and the call raises
(returns no price). -/
theorem C10_counterexample : calculate_booking_price 4 BType.hourly 1380 1410 = none := by
  decide

/-- Claim C10 (amended): calculate_booking_price returns a price for
every hourly range with start < end whose end lies at or before 23:00;
beyond 23:00 the hour stepping overflows instead. -/
theorem C10_total_up_to_2300 (d : Int) (s e : Nat) (_h1 : s < e) (h2 : e ≤ 1380) :
    (calculate_booking_price d BType.hourly s e).isSome = true := by
  unfold calculate_booking_price
  rw [if_neg (by decide : ¬ (BType.hourly = BType.full_day))]
  exact priceHourlyGo_isSome _ e h2 (e - s) s 0 le_rfl

/-- Claim C10 witness: the amended statement at the hourly range
10:00 - 12:00 on day 4. -/
theorem C10_witness :
    (600 : Nat) < 720 ∧ (720 : Nat) ≤ 1380
    ∧ (calculate_booking_price 4 BType.hourly 600 720).isSome = true :=
  ⟨by decide, by decide, C10_total_up_to_2300 4 600 720 (by decide) (by decide)⟩

/-- Claim C1: replaying a payment request whose transaction_ref T1 is
already recorded does not return the original outcome unchanged: a
retry of the identical slot is answered 409 by the conflict check, and
a retry naming a free slot does return the recorded payment data but
first creates and commits one more CONFIRMED Booking row (the payment
table alone stays unchanged). -/
theorem C1_pay_retry_creates_extra_booking :
    (BookingPayView_post turf1 5 4 600 2 "UPI" "T1" db_c1).1 = PayResult.conflict409
    ∧ (BookingPayView_post turf1 5 4 840 1 "UPI" "T1" db_c1).1
        = PayResult.alreadyProcessed 1 PayStatus.SUCCESS 2100 "INR"
    ∧ ((BookingPayView_post turf1 5 4 840 1 "UPI" "T1" db_c1).2).bookings.length = 2
    ∧ ((BookingPayView_post turf1 5 4 840 1 "UPI" "T1" db_c1).2).payments = [paymentT1] := by
  refine ⟨by decide, by decide, by decide, by decide⟩

/-- Claim C2: with a CONFIRMED FULL_DAY booking on (turf 1, day 4) the
legacy confirm view and BookingSerializer.create reject a new HOURLY
request, but BookingPayView.post accepts it and creates a second
CONFIRMED booking, because its conflict filter only looks at HOURLY
bookings. -/
theorem C2_pay_path_ignores_full_day :
    (BookingConfirmView_post turf1 7 4 600 1 db_c2).1 = ConfirmResult.fullDayConflict
    ∧ BookingSerializer_create turf1 7 4 BType.hourly 600 660 db_c2
        = Except.error "Turf already booked"
    ∧ (BookingPayView_post turf1 7 4 600 1 "UPI" "T2" db_c2).1
        = PayResult.bookingConfirmed 2 1050
    ∧ ((BookingPayView_post turf1 7 4 600 1 "UPI" "T2" db_c2).2).bookings.length = 2 := by
  refine ⟨by decide, by decide, ?_, by decide⟩
  simp [BookingPayView_post, db_c2, turf1, bookingFullDay]
  norm_num

/-- Claim C5: the today-allowed / past-rejected / 60-day full-day /
7-day hourly rules all hold in BookingSerializer.validate, but they are
enforced on no other allocation path: both the legacy confirm view and
the pay view accept a booking_date five days in the past and create the
booking. -/
theorem C5_date_checks_only_on_serializer_path :
    BookingSerializer_validate turf1 20000 20000 BType.hourly (some 600) (some 720) = none
    ∧ BookingSerializer_validate turf1 20000 19999 BType.hourly (some 600) (some 720)
        = some "Cannot book past dates"
    ∧ BookingSerializer_validate turf1 20000 20061 BType.full_day none none
        = some "Full-day booking allowed only up to 2 months in advance"
    ∧ BookingSerializer_validate turf1 20000 20060 BType.full_day none none = none
    ∧ BookingSerializer_validate turf1 20000 20008 BType.hourly (some 600) (some 720)
        = some "Hourly booking allowed only up to 7 days in advance"
    ∧ (BookingConfirmView_post turf1 7 19995 600 1 db_empty).1 = ConfirmResult.success 1
    ∧ (BookingPayView_post turf1 7 19995 600 1 "UPI" "T3" db_empty).1
        = PayResult.bookingConfirmed 1 1050
    ∧ ((BookingPayView_post turf1 7 19995 600 1 "UPI" "T3" db_empty).2).bookings.length = 1 := by
  refine ⟨by decide, by decide, by decide, by decide, by decide, by decide, ?_, by decide⟩
  simp [BookingPayView_post, db_empty, turf1]
  norm_num

/-- Claim C7 (counterexample): with a MaintenanceBlock 10:00 - 11:00 on
(turf 1, day 4) and no Slot rows, the slot read path reports the
10:00 - 11:00 interval AVAILABLE, the booked-slot availability response
is empty, and an allocation overlapping the block succeeds and creates
a booking. -/
theorem C7_counterexample :
    (build_slots_response turf1 4 db_c7).filter (fun s => s.from_time == 600)
      = [{ from_time := 600, to_time := 660, status := SlotStatus.AVAILABLE
           price := 1000, label := "Open Session" }]
    ∧ (TurfAvailabilityView_get turf1 4 db_c7).booked_slots = []
    ∧ ((BookingPayView_post turf1 7 4 600 1 "UPI" "T4" db_c7).2).bookings.length = 1 := by
  refine ⟨by decide, by decide, by decide⟩

/-- Claim C7 (amended): no read or allocation path consults
MaintenanceBlock rows: adding a block changes neither the slot read
response, nor the availability response, nor the outcome and booking
table of the pay allocation; an interval is tagged MAINTENANCE only
when an explicit Slot row with that status exists for its start time. -/
theorem C7_maintenance_blocks_ignored :
    (∀ (m : MaintRow) (t : Turf) (d : Int) (db : Db),
      build_slots_response t d { db with maint := m :: db.maint }
        = build_slots_response t d db)
    ∧ (∀ (m : MaintRow) (t : Turf) (d : Int) (db : Db),
      TurfAvailabilityView_get t d { db with maint := m :: db.maint }
        = TurfAvailabilityView_get t d db)
    ∧ (∀ (m : MaintRow) (t : Turf) (u : Nat) (d : Int) (s dur : Nat)
        (mth tref : String) (db : Db),
      (BookingPayView_post t u d s dur mth tref { db with maint := m :: db.maint }).1
          = (BookingPayView_post t u d s dur mth tref db).1
      ∧ ((BookingPayView_post t u d s dur mth tref { db with maint := m :: db.maint }).2).bookings
          = ((BookingPayView_post t u d s dur mth tref db).2).bookings)
    ∧ (build_slots_response turf1 4 db_maint_slot).filter (fun s => s.from_time == 600)
        = [{ from_time := 600, to_time := 660, status := SlotStatus.MAINTENANCE
             price := 800, label := "maint" }] := by
  refine ⟨?_, ?_, ?_, by decide⟩
  · intro m t d db
    rfl
  · intro m t d db
    rfl
  · intro m t u d s dur mth tref db
    unfold BookingPayView_post
    cases hC : db.bookings.any (fun b =>
        b.turfId == t.id && b.booking_date == d && b.status == BStatus.CONFIRMED &&
        b.booking_type == BType.hourly &&
        decide (b.start_time < (s + dur * 60) % 1440) && decide (b.end_time > s)) with
    | true => simp [hC]
    | false =>
        cases hF : db.payments.find? (fun p => p.transaction_ref == tref) with
        | none => simp [hC, hF]
        | some p => simp [hC, hF]

/-- A row that is not the first match of `p` survives replaceFirst. -/
theorem mem_replaceFirst_of_ne (p : SlotRow → Bool) (f : SlotRow → SlotRow)
    (l : List SlotRow) (r slot : SlotRow) (hfind : l.find? p = some slot)
    (hne : r ≠ slot) (hr : r ∈ l) : r ∈ replaceFirst p f l := by
  induction l with
  | nil => cases hr
  | cons x xs ih =>
      by_cases hx : p x = true
      · rw [List.find?_cons_of_pos _ hx] at hfind
        have hxs : x = slot := by injection hfind
        simp only [replaceFirst, if_pos hx]
        rcases List.mem_cons.mp hr with h | h
        · exact absurd (h.trans hxs) hne
        · exact List.mem_cons_of_mem _ h
      · rw [List.find?_cons_of_neg _ hx] at hfind
        simp only [replaceFirst, if_neg hx]
        rcases List.mem_cons.mp hr with h | h
        · exact h ▸ List.mem_cons_self x (replaceFirst p f xs)
        · exact List.mem_cons_of_mem _ (ih hfind h)

/-- The smart-save loop never loses a BOOKED row on a successful run. -/
theorem smartGo_preserves_booked (t : Nat) (d : Int) :
    ∀ (l : List SlotReq) (acc : Nat × Nat) (db : Db) (out : Nat × Nat × Db),
      smartGo t d l acc db = Except.ok out →
      ∀ r ∈ db.slots, r.status = SlotStatus.BOOKED → r ∈ out.2.2.slots := by
  intro l
  induction l with
  | nil =>
      intro acc db out h r hr hb
      simp only [smartGo, Except.ok.injEq] at h
      rw [← h]
      exact hr
  | cons s rest ih =>
      intro acc db out h r hr hb
      cases hF : db.slots.find? (exactRange t d s.start_time s.end_time) with
      | none =>
          simp only [smartGo, hF] at h
          exact ih _ _ _ h r (List.mem_append.mpr (Or.inl hr)) hb
      | some slot =>
          by_cases hbk : (slot.status == SlotStatus.BOOKED) = true
          · simp only [smartGo, hF, if_pos hbk] at h
            exact Except.noConfusion h
          · simp only [smartGo, hF, if_neg hbk] at h
            refine ih _ _ _ h r ?_ hb
            refine mem_replaceFirst_of_ne _ _ _ r slot hF ?_ hr
            intro hEq
            subst hEq
            exact hbk (by simp [hb])

/-- The bulk-patch loop never loses a BOOKED row on a successful run. -/
theorem bulkPatchGo_preserves_booked (t : Nat) (d : Int) (data : SlotPatch) :
    ∀ (l : List (Nat × Nat)) (count : Nat) (db : Db) (out : Nat × Db),
      bulkPatchGo t d data l count db = Except.ok out →
      ∀ r ∈ db.slots, r.status = SlotStatus.BOOKED → r ∈ out.2.slots := by
  intro l
  induction l with
  | nil =>
      intro count db out h r hr hb
      simp only [bulkPatchGo, Except.ok.injEq] at h
      rw [← h]
      exact hr
  | cons rng rest ih =>
      intro count db out h r hr hb
      cases hF : db.slots.find? (exactRange t d rng.1 rng.2) with
      | none =>
          simp only [bulkPatchGo, hF] at h
          exact Except.noConfusion h
      | some slot =>
          by_cases hbk : (slot.status == SlotStatus.BOOKED) = true
          · simp only [bulkPatchGo, hF, if_pos hbk] at h
            exact Except.noConfusion h
          · simp only [bulkPatchGo, hF, if_neg hbk] at h
            refine ih _ _ _ h r ?_ hb
            refine mem_replaceFirst_of_ne _ _ _ r slot hF ?_ hr
            intro hEq
            subst hEq
            exact hbk (by simp [hb])

/-- Claim C8 (counterexample): a smart-save request whose range
10:30 - 11:30 overlaps (but does not equal) the BOOKED slot
10:00 - 11:00 is not rejected: it succeeds and creates a new
overlapping row next to the BOOKED one. -/
theorem C8_counterexample :
    overlaps 630 690 600 660 = true
    ∧ SmartSlotSaveView_patch 1 4
        [{ start_time := 630, end_time := 690, status := SlotStatus.AVAILABLE
           price := 450, label := "x" }] db_c8
      = Except.ok (1, 0,
          { bookings := [], payments := []
            slots := [bookedSlot1,
              { id := 2, turfId := 1, date := 4, start_time := 630, end_time := 690
                status := SlotStatus.AVAILABLE, price := 450, label := "x" }]
            maint := [], nextBookingId := 1, nextSlotId := 3 }) := by
  refine ⟨by decide, by decide⟩

/-- Claim C8 (amended): every slot-management write preserves every
BOOKED Slot row: bulk save rejects any range overlapping a BOOKED slot
and keeps BOOKED rows through its delete-and-recreate; smart save and
bulk patch abort when their exact-range target is BOOKED and never
modify a BOOKED row on success; single update and delete reject a
BOOKED target.  (Smart save does not reject a merely overlapping
range, which is what the counterexample shows.) -/
theorem C8_booked_slots_preserved :
    (∀ (t : Nat) (d : Int) (parsed : List SlotReq) (db db' : Db),
      BulkSlotSaveView_post t d parsed db = Except.ok db' →
      ∀ r ∈ db.slots, r.status = SlotStatus.BOOKED → r ∈ db'.slots)
    ∧ (∀ (t : Nat) (d : Int) (parsed : List SlotReq) (db : Db) (inc : SlotReq) (r : SlotRow),
      inc ∈ parsed → r ∈ db.slots → r.turfId = t → r.date = d →
      r.status = SlotStatus.BOOKED →
      overlaps inc.start_time inc.end_time r.start_time r.end_time = true →
      BulkSlotSaveView_post t d parsed db
        = Except.error "Cannot modify slots overlapping booked slots")
    ∧ (∀ (t : Nat) (d : Int) (reqs : List SlotReq) (db : Db) (out : Nat × Nat × Db),
      SmartSlotSaveView_patch t d reqs db = Except.ok out →
      ∀ r ∈ db.slots, r.status = SlotStatus.BOOKED → r ∈ out.2.2.slots)
    ∧ (∀ (t : Nat) (d : Int) (s : SlotReq) (rest : List SlotReq) (db : Db) (slot : SlotRow),
      db.slots.find? (exactRange t d s.start_time s.end_time) = some slot →
      slot.status = SlotStatus.BOOKED →
      SmartSlotSaveView_patch t d (s :: rest) db
        = Except.error "Booked slot cannot be modified")
    ∧ (∀ (slotId : Nat) (p : SlotPatch) (db : Db) (slot : SlotRow),
      db.slots.find? (fun r => r.id == slotId) = some slot →
      slot.status = SlotStatus.BOOKED →
      SlotUpdateView_patch slotId p db = Except.error "Booked slots cannot be modified")
    ∧ (∀ (slotId : Nat) (db : Db) (slot : SlotRow),
      db.slots.find? (fun r => r.id == slotId) = some slot →
      slot.status = SlotStatus.BOOKED →
      SlotDeleteView_delete slotId db = Except.error "Booked slots cannot be deleted")
    ∧ (∀ (t : Nat) (d : Int) (data : SlotPatch) (rngs : List (Nat × Nat)) (db : Db)
        (out : Nat × Db),
      BulkSlotUpdateView_patch t d rngs data db = Except.ok out →
      ∀ r ∈ db.slots, r.status = SlotStatus.BOOKED → r ∈ out.2.slots) := by
  refine ⟨?_, ?_, ?_, ?_, ?_, ?_, ?_⟩
  · intro t d parsed db db' h r hr hb
    simp only [BulkSlotSaveView_post] at h
    cases hC : parsed.any (fun incoming =>
        (db.slots.filter (fun s =>
          s.turfId == t && s.date == d && s.status == SlotStatus.BOOKED)).any
          (fun booked => !(decide (incoming.end_time ≤ booked.start_time)
            || decide (incoming.start_time ≥ booked.end_time)))) with
    | true =>
        rw [if_pos hC] at h
        exact Except.noConfusion h
    | false =>
        rw [if_neg (by simp only [hC]; simp)] at h
        injection h with h2
        rw [← h2]
        refine List.mem_append.mpr (Or.inl ?_)
        refine List.mem_filter.mpr ⟨hr, ?_⟩
        simp [hb]
  · intro t d parsed db inc r hinc hr ht hd hb hov
    simp only [BulkSlotSaveView_post]
    split
    · rfl
    · rename_i hC
      exfalso
      apply hC
      refine List.any_eq_true.mpr ⟨inc, hinc, ?_⟩
      refine List.any_eq_true.mpr ⟨r, List.mem_filter.mpr ⟨hr, by simp [ht, hd, hb]⟩, ?_⟩
      simp only [overlaps, Bool.and_eq_true, decide_eq_true_eq] at hov
      simp only [Bool.not_eq_true', Bool.or_eq_false_iff, decide_eq_false_iff_not]
      omega
  · intro t d reqs db out h r hr hb
    exact smartGo_preserves_booked t d reqs (0, 0) db out h r hr hb
  · intro t d s rest db slot hF hb
    simp [SmartSlotSaveView_patch, smartGo, hF, hb]
  · intro slotId p db slot hF hb
    simp [SlotUpdateView_patch, hF, hb]
  · intro slotId db slot hF hb
    simp [SlotDeleteView_delete, hF, hb]
  · intro t d data rngs db out h r hr hb
    exact bulkPatchGo_preserves_booked t d data rngs 0 db out h r hr hb

/-- Claim C8 witness: the amended statement at concrete inputs on the
database holding the BOOKED slot 10:00 - 11:00 (plus, for the bulk
patch case, an AVAILABLE slot 11:40 - 12:40). -/
theorem C8_witness :
    bookedSlot1 ∈ (Db.mk [] []
        [bookedSlot1,
         { id := 2, turfId := 1, date := 4, start_time := 700, end_time := 760
           status := SlotStatus.AVAILABLE, price := 450, label := "y" }] [] 1 3).slots
    ∧ BulkSlotSaveView_post 1 4
        [{ start_time := 630, end_time := 690, status := SlotStatus.AVAILABLE
           price := 450, label := "x" }] db_c8
        = Except.error "Cannot modify slots overlapping booked slots"
    ∧ bookedSlot1 ∈ ((1, 0, Db.mk [] []
        [bookedSlot1,
         { id := 2, turfId := 1, date := 4, start_time := 700, end_time := 760
           status := SlotStatus.AVAILABLE, price := 450, label := "y" }] [] 1 3) :
          Nat × Nat × Db).2.2.slots
    ∧ SmartSlotSaveView_patch 1 4
        [{ start_time := 600, end_time := 660, status := SlotStatus.AVAILABLE
           price := 450, label := "x" }] db_c8
        = Except.error "Booked slot cannot be modified"
    ∧ SlotUpdateView_patch 1 (SlotPatch.mk (some SlotStatus.AVAILABLE) none none) db_c8
        = Except.error "Booked slots cannot be modified"
    ∧ SlotDeleteView_delete 1 db_c8
        = Except.error "Booked slots cannot be deleted"
    ∧ bookedSlot1 ∈ ((1, Db.mk [] []
        [bookedSlot1,
         { id := 2, turfId := 1, date := 4, start_time := 700, end_time := 760
           status := SlotStatus.AVAILABLE, price := 500, label := "y" }] [] 1 3) :
          Nat × Db).2.slots :=
  ⟨C8_booked_slots_preserved.1 1 4
      [{ start_time := 700, end_time := 760, status := SlotStatus.AVAILABLE
         price := 450, label := "y" }] db_c8 _ (by decide) bookedSlot1 (by decide) (by decide),
   C8_booked_slots_preserved.2.1 1 4
      [{ start_time := 630, end_time := 690, status := SlotStatus.AVAILABLE
         price := 450, label := "x" }] db_c8
      { start_time := 630, end_time := 690, status := SlotStatus.AVAILABLE
        price := 450, label := "x" } bookedSlot1
      (by decide) (by decide) (by decide) (by decide) (by decide) (by decide),
   C8_booked_slots_preserved.2.2.1 1 4
      [{ start_time := 700, end_time := 760, status := SlotStatus.AVAILABLE
         price := 450, label := "y" }] db_c8 _ (by decide) bookedSlot1 (by decide) (by decide),
   C8_booked_slots_preserved.2.2.2.1 1 4
      { start_time := 600, end_time := 660, status := SlotStatus.AVAILABLE
        price := 450, label := "x" } [] db_c8 bookedSlot1 (by decide) (by decide),
   C8_booked_slots_preserved.2.2.2.2.1 1
      (SlotPatch.mk (some SlotStatus.AVAILABLE) none none) db_c8 bookedSlot1
      (by decide) (by decide),
   C8_booked_slots_preserved.2.2.2.2.2.1 1 db_c8 bookedSlot1 (by decide) (by decide),
   C8_booked_slots_preserved.2.2.2.2.2.2 1 4
      (SlotPatch.mk none (some 500) none) [(700, 760)]
      (Db.mk [] []
        [bookedSlot1,
         { id := 2, turfId := 1, date := 4, start_time := 700, end_time := 760
           status := SlotStatus.AVAILABLE, price := 450, label := "y" }] [] 1 3) _
      (by decide) bookedSlot1 (by decide) (by decide)⟩

end TurfBackend
